import Mathlib

/-!
Verification of the span-to-text formatter and the writer exporter from
`examples/opentelemetry-error.rs`.

The example's only non-trivial logic is the `Display` implementation for the
local `SpanData` wrapper (span record + resource) and the `SpanExporter`
implementation for `WriterExporter`.  We embed both shallowly:

* Keys, values and link payloads appear in the output only through their
  `Display`/`Debug` renderings, so they are modelled as the strings those
  renderings produce.
* Timestamps (`SystemTime`) are modelled as signed nanosecond offsets from
  `UNIX_EPOCH`; `SystemTime::duration_since(UNIX_EPOCH)` succeeds exactly
  when the offset is non-negative, and `Duration::as_secs` truncates
  nanoseconds to whole seconds.
* A Rust panic (`.expect(msg)` on an `Err`) is modelled with the dedicated
  outcome type `Panics`: `Panics.panicked msg` is a panic carrying the
  `expect` message, `Panics.ok v` a normal return.  Writes into a string
  buffer never fail, so `fmt::Error` never arises and the only abnormal
  outcome of rendering is a panic.  In the source, the panicking `expect`
  runs while the format arguments of a `writeln!` are evaluated, before any
  byte of that line is written, so each `- Start:`/`- End:` line is produced
  atomically or not at all; the model mirrors this by having `startLine`/
  `endLine` return either the whole line or a panic.
-/

/-- Outcome of running Rust code that can panic: either a normal value or a
panic carrying the panic message. -/
inductive Panics (α : Type) where
  | ok (val : α)
  | panicked (msg : String)
deriving DecidableEq

/-- A key/value attribute, with key and value taken in their `Display`
rendering (the only way the formatter uses them). -/
structure KeyValue where
  key : String
  value : String
deriving DecidableEq

/-- A `Resource` as the formatter consumes it: its attribute pairs in
iteration order. -/
abbrev Resource := List KeyValue

/-- `opentelemetry::trace::Status`. -/
inductive Status where
  | unset
  | error (description : String)
  | ok
deriving DecidableEq

/-- A span event: name plus its attribute pairs in record order. -/
structure Event where
  name : String
  attributes : List KeyValue
deriving DecidableEq

/-- A finalized span record (`sdk::export::trace::SpanData`), restricted to
the fields the formatter reads.  `start_time`/`end_time` are nanosecond
offsets from the unix epoch (negative = before the epoch).  Each link is
kept as the string its `Debug` rendering produces. -/
structure SpanRecord where
  name : String
  status : Status
  start_time : Int
  end_time : Int
  attributes : List KeyValue
  events : List Event
  links : List String
deriving DecidableEq

/-- `SystemTime::duration_since(UNIX_EPOCH)`: fails exactly when the time is
strictly before the epoch, otherwise yields the elapsed nanoseconds. -/
def durationSince (t : Int) : Option Nat :=
  if t < 0 then none else some t.toNat

/-- `Duration::as_secs`: whole seconds, truncating. -/
def asSecs (nanos : Nat) : Nat :=
  nanos / 1000000000

/-- The `Span: "<name>"` header line. -/
def spanHeader (s : SpanRecord) : String :=
  "Span: \"" ++ s.name ++ "\"\n"

/-- The status lines: nothing for `Unset`, `- Status: Ok` for `Ok`,
`- Status: Error` plus `- Error: <description>` for `Error`. -/
def statusSection (st : Status) : String :=
  match st with
  | Status.unset => ""
  | Status.error description => "- Status: Error\n" ++ "- Error: " ++ description ++ "\n"
  | Status.ok => "- Status: Ok\n"

/-- The `- Start:` line: `duration_since` then `.expect("start time is before
the unix epoch")` then `.as_secs()`. -/
def startLine (s : SpanRecord) : Panics String :=
  match durationSince s.start_time with
  | none => Panics.panicked "start time is before the unix epoch"
  | some n => Panics.ok ("- Start: " ++ toString (asSecs n) ++ "\n")

/-- The `- End:` line, same shape as `startLine` with its own message. -/
def endLine (s : SpanRecord) : Panics String :=
  match durationSince s.end_time with
  | none => Panics.panicked "end time is before the unix epoch"
  | some n => Panics.ok ("- End: " ++ toString (asSecs n) ++ "\n")

/-- One `  - <key>: <value>` item line, used for resource and span
attributes. -/
def kvLine (kv : KeyValue) : String :=
  "  - " ++ kv.key ++ ": " ++ kv.value ++ "\n"

/-- Sequential `writeln!` calls inside a loop append their lines in order;
`concatAll` is that concatenation. -/
def concatAll : List String → String
  | [] => ""
  | x :: rest => x ++ concatAll rest

/-- `- Resource:` header plus one item line per resource attribute in
iteration order. -/
def resourceSection (res : Resource) : String :=
  "- Resource:\n" ++ concatAll (res.map kvLine)

/-- `- Attributes:` header plus one item line per span attribute in record
order. -/
def attributesSection (attrs : List KeyValue) : String :=
  "- Attributes:\n" ++ concatAll (attrs.map kvLine)

/-- The fold over an event's attributes from the source: the accumulator
starts at `None`; the first pair is rendered `{key} = {value}` (spaces
around the equals sign, from `format!("{} = {}", ..)`), every later pair is
appended as `, {key}={value}` (no spaces). -/
def eventAttrsFold (attrs : List KeyValue) : Option String :=
  attrs.foldl
    (fun acc d =>
      match acc with
      | some a => some (a ++ ", " ++ d.key ++ "=" ++ d.value)
      | none => some (d.key ++ " = " ++ d.value))
    none

/-- One event line: `  - "<name>"` when the fold yields nothing (no
attributes), otherwise `  - "<name>" {<folded pairs>}`. -/
def eventLine (e : Event) : String :=
  match eventAttrsFold e.attributes with
  | some s => "  - \"" ++ e.name ++ "\" \x7b" ++ s ++ "\x7d\n"
  | none => "  - \"" ++ e.name ++ "\"\n"

/-- `- Events:` header plus one event line per event in record order. -/
def eventsSection (es : List Event) : String :=
  "- Events:\n" ++ concatAll (es.map eventLine)

/-- `- Links:` header plus one `  - <debug rendering>` line per link. -/
def linksSection (ls : List String) : String :=
  "- Links:\n" ++ concatAll (ls.map (fun l => "  - " ++ l ++ "\n"))

/-- The local wrapper struct `SpanData { span, resource }`. -/
structure SpanData where
  span : SpanRecord
  resource : Resource
deriving DecidableEq

/-- `impl Display for SpanData`: the sections written in source order.  The
header and status lines are written first; then the `- Start:` argument is
evaluated (panicking on a pre-epoch start time), then the `- End:` argument
(panicking on a pre-epoch end time); on success the full text is the
concatenation of all sections. -/
def SpanData.fmt (sd : SpanData) : Panics String :=
  match startLine sd.span with
  | Panics.panicked m => Panics.panicked m
  | Panics.ok st =>
    match endLine sd.span with
    | Panics.panicked m => Panics.panicked m
    | Panics.ok en =>
      Panics.ok (spanHeader sd.span ++ statusSection sd.span.status ++ st ++ en ++
        resourceSection sd.resource ++ attributesSection sd.span.attributes ++
        eventsSection sd.span.events ++ linksSection sd.span.links)

/-- `ExportResult = Result<(), opentelemetry trace Error>`; the error payload
is abstracted to its message string. -/
abbrev ExportResult := Except String Unit

instance : DecidableEq ExportResult := fun a b =>
  match a, b with
  | Except.ok (), Except.ok () => isTrue rfl
  | Except.error x, Except.error y =>
    if h : x = y then isTrue (by rw [h])
    else isFalse (fun hc => by injection hc with h2; exact h h2)
  | Except.ok _, Except.error _ => isFalse (fun hc => Except.noConfusion hc)
  | Except.error _, Except.ok _ => isFalse (fun hc => Except.noConfusion hc)

/-- `struct WriterExporter { resource: Resource }`. -/
structure WriterExporter where
  resource : Resource
deriving DecidableEq

/-- The `for span in batch` loop of `export`: each span is wrapped with the
exporter's current resource, rendered, and written followed by a newline
(`writeln!(writer, "{}", span_data)`); a rendering panic aborts the loop.
`acc` is what the sink has received so far. -/
def exportLoop (resource : Resource) : List SpanRecord → String → Panics String
  | [], acc => Panics.ok acc
  | s :: rest, acc =>
    match SpanData.fmt { span := s, resource := resource } with
    | Panics.panicked m => Panics.panicked m
    | Panics.ok text => exportLoop resource rest (acc ++ text ++ "\n")

/-- `WriterExporter::export`: run the loop over the batch, then write one
final empty `writeln!` (a single `"\n"`), and return a future resolving to
`ExportResult::Ok(())`.  The returned pair is (everything written to the
sink, the returned result). -/
def WriterExporter.export (e : WriterExporter) (batch : List SpanRecord) :
    Panics (String × ExportResult) :=
  match exportLoop e.resource batch "" with
  | Panics.panicked m => Panics.panicked m
  | Panics.ok out => Panics.ok (out ++ "\n", Except.ok ())

/-- `WriterExporter::set_resource`: overwrite the stored resource with a
clone of the argument. -/
def WriterExporter.set_resource (e : WriterExporter) (r : Resource) : WriterExporter :=
  { e with resource := r }

/-! ## Helper lemmas -/

theorem str_append_assoc (a b c : String) : a ++ b ++ c = a ++ (b ++ c) := by
  apply String.ext
  simp [String.data_append, List.append_assoc]

theorem str_append_empty (a : String) : a ++ "" = a := by
  apply String.ext
  simp [String.data_append]

theorem fmt_ok_shape (sd : SpanData) (out : String)
    (h : SpanData.fmt sd = Panics.ok out) :
    ∃ st en, startLine sd.span = Panics.ok st ∧ endLine sd.span = Panics.ok en ∧
      out = spanHeader sd.span ++ statusSection sd.span.status ++ st ++ en ++
        resourceSection sd.resource ++ attributesSection sd.span.attributes ++
        eventsSection sd.span.events ++ linksSection sd.span.links := by
  unfold SpanData.fmt at h
  cases hs : startLine sd.span with
  | panicked m => rw [hs] at h; cases h
  | ok st =>
    rw [hs] at h
    cases he : endLine sd.span with
    | panicked m => rw [he] at h; cases h
    | ok en =>
      rw [he] at h
      injection h with h
      exact ⟨st, en, rfl, rfl, h.symm⟩

/-! ## Concrete records used by witnesses and counterexamples -/

def preEpochSpan : SpanRecord :=
  { name := "s", status := Status.unset, start_time := -1, end_time := 0,
    attributes := [], events := [], links := [] }

def preEpochEndSpan : SpanRecord :=
  { name := "s", status := Status.unset, start_time := 0, end_time := -5,
    attributes := [], events := [], links := [] }

def demoResource : Resource := [{ key := "service", value := "demo" }]

def demoSpan : SpanRecord :=
  { name := "expensive_step_1", status := Status.ok,
    start_time := 1700000000000000000, end_time := 1700000000000000000,
    attributes := [], events := [], links := [] }

def evtAB : Event :=
  { name := "evt", attributes := [{ key := "a", value := "1" }, { key := "b", value := "2" }] }

/-! ## Claims -/

/-- Claim C1, counterexample: at a record whose start time is one nanosecond
before the epoch, formatting panics — the `expect` in the source fires with
its message — rather than failing with a returned TimeError.  The claim's
"fails with a TimeError ... it does not panic" is therefore false on the
code. -/
theorem C1_counterexample :
    SpanData.fmt { span := preEpochSpan, resource := [] } =
      Panics.panicked "start time is before the unix epoch" := by decide

/-- Claim C1 (amended): for a record whose start time precedes the epoch,
formatting panics with message "start time is before the unix epoch"; for a
start time at/after the epoch but an end time before it, formatting panics
with "end time is before the unix epoch"; in both cases nothing of the
offending field's line is emitted (the line is produced atomically or not at
all).  For records at/after the epoch, the `- Start:`/`- End:` lines show
the timestamp truncated to whole seconds since the epoch. -/
theorem C1_time_rendering (sd : SpanData) :
    (sd.span.start_time < 0 →
      SpanData.fmt sd = Panics.panicked "start time is before the unix epoch") ∧
    (0 ≤ sd.span.start_time → sd.span.end_time < 0 →
      SpanData.fmt sd = Panics.panicked "end time is before the unix epoch") ∧
    (0 ≤ sd.span.start_time → 0 ≤ sd.span.end_time →
      SpanData.fmt sd = Panics.ok (spanHeader sd.span ++ statusSection sd.span.status ++
        ("- Start: " ++ toString (asSecs sd.span.start_time.toNat) ++ "\n") ++
        ("- End: " ++ toString (asSecs sd.span.end_time.toNat) ++ "\n") ++
        resourceSection sd.resource ++ attributesSection sd.span.attributes ++
        eventsSection sd.span.events ++ linksSection sd.span.links)) := by
  refine ⟨fun h1 => ?_, fun h1 h2 => ?_, fun h1 h2 => ?_⟩
  · simp [SpanData.fmt, startLine, durationSince, if_pos h1]
  · simp [SpanData.fmt, startLine, endLine, durationSince, if_neg (not_lt.mpr h1), if_pos h2]
  · simp [SpanData.fmt, startLine, endLine, durationSince,
      if_neg (not_lt.mpr h1), if_neg (not_lt.mpr h2)]

/-- Claim C1 witness: the amended theorem applied at concrete records on
each of its three branches. -/
theorem C1_time_rendering_witness :
    SpanData.fmt { span := preEpochSpan, resource := demoResource } =
      Panics.panicked "start time is before the unix epoch" ∧
    SpanData.fmt { span := preEpochEndSpan, resource := [] } =
      Panics.panicked "end time is before the unix epoch" ∧
    SpanData.fmt { span := demoSpan, resource := demoResource } =
      Panics.ok (spanHeader demoSpan ++ statusSection demoSpan.status ++
        ("- Start: " ++ toString (asSecs demoSpan.start_time.toNat) ++ "\n") ++
        ("- End: " ++ toString (asSecs demoSpan.end_time.toNat) ++ "\n") ++
        resourceSection demoResource ++ attributesSection demoSpan.attributes ++
        eventsSection demoSpan.events ++ linksSection demoSpan.links) :=
  ⟨(C1_time_rendering _).1 (by decide),
   (C1_time_rendering _).2.1 (by decide) (by decide),
   (C1_time_rendering _).2.2 (by decide) (by decide)⟩

theorem foldl_eventAttrs_some (l : List KeyValue) (x : String) :
    l.foldl
      (fun acc d =>
        match acc with
        | some a => some (a ++ ", " ++ d.key ++ "=" ++ d.value)
        | none => some (d.key ++ " = " ++ d.value))
      (some x) =
    some (l.foldl (fun a d => a ++ ", " ++ d.key ++ "=" ++ d.value) x) := by
  induction l generalizing x with
  | nil => rfl
  | cons d rest ih => simpa using ih (x ++ ", " ++ d.key ++ "=" ++ d.value)

/-- Claim C2, counterexample: for the event `evt` with attributes
`{a: "1", b: "2"}` the claim predicts the line `  - "evt" {a=1, b=2}`, but
the source renders the first pair with spaces around the equals sign
(`format!("{} = {}", ..)`), producing `  - "evt" {a = 1, b=2}`. -/
theorem C2_counterexample :
    eventLine evtAB = "  - \"evt\" \x7ba = 1, b=2\x7d\n" ∧
    eventLine evtAB ≠ "  - \"evt\" \x7ba=1, b=2\x7d\n" := by decide

/-- Claim C2 (amended): an event with no attributes renders as the single
indented line `- "<name>"`; an event with attributes renders as
`- "<name>" {k1 = v1, k2=v2, ...}` where the FIRST pair is rendered
`k = v` with spaces around the equals sign and every subsequent pair as
`k=v`, pairs joined by `, ` in the event's original attribute order; the
`- Events:` section renders one such line per event. -/
theorem C2_event_line (e : Event) (es : List Event) :
    (e.attributes = [] → eventLine e = "  - \"" ++ e.name ++ "\"\n") ∧
    (∀ kv rest, e.attributes = kv :: rest →
      eventLine e = "  - \"" ++ e.name ++ "\" \x7b" ++
        rest.foldl (fun a d => a ++ ", " ++ d.key ++ "=" ++ d.value)
          (kv.key ++ " = " ++ kv.value) ++ "\x7d\n") ∧
    eventsSection es = "- Events:\n" ++ concatAll (es.map eventLine) := by
  refine ⟨fun h => ?_, fun kv rest h => ?_, rfl⟩
  · simp [eventLine, eventAttrsFold, h]
  · simp [eventLine, eventAttrsFold, h, foldl_eventAttrs_some]

/-- Claim C2 witness: the amended theorem applied at a no-attribute event
and at the two-attribute event `evt {a: "1", b: "2"}`. -/
theorem C2_event_line_witness :
    eventLine { name := "e0", attributes := [] } = "  - \"" ++ "e0" ++ "\"\n" ∧
    eventLine evtAB = "  - \"" ++ evtAB.name ++ "\" \x7b" ++
      ([KeyValue.mk "b" "2"]).foldl
        (fun a d => a ++ ", " ++ d.key ++ "=" ++ d.value)
        ((KeyValue.mk "a" "1").key ++ " = " ++ (KeyValue.mk "a" "1").value) ++ "\x7d\n" :=
  ⟨(C2_event_line { name := "e0", attributes := [] } []).1 rfl,
   (C2_event_line evtAB []).2.1 (KeyValue.mk "a" "1") [KeyValue.mk "b" "2"] rfl⟩

/-- Claim C3: the rendered output opens with the span header followed
immediately by the status section; that section is empty for `Unset`,
exactly `- Status: Ok` for `Ok`, and `- Status: Error` followed by
`- Error: <description>` (the record's description verbatim) for `Error`. -/
theorem C3_status_lines (sd : SpanData) :
    (∀ out, SpanData.fmt sd = Panics.ok out →
      ∃ rest, out = spanHeader sd.span ++ statusSection sd.span.status ++ rest) ∧
    (sd.span.status = Status.unset → statusSection sd.span.status = "") ∧
    (sd.span.status = Status.ok → statusSection sd.span.status = "- Status: Ok\n") ∧
    (∀ d, sd.span.status = Status.error d →
      statusSection sd.span.status = "- Status: Error\n" ++ "- Error: " ++ d ++ "\n") := by
  refine ⟨fun out h => ?_, fun h => by simp [statusSection, h],
    fun h => by simp [statusSection, h], fun d h => by simp [statusSection, h]⟩
  obtain ⟨st, en, _, _, hout⟩ := fmt_ok_shape sd out h
  refine ⟨st ++ (en ++ (resourceSection sd.resource ++ (attributesSection sd.span.attributes ++
    (eventsSection sd.span.events ++ linksSection sd.span.links)))), ?_⟩
  simp only [hout, str_append_assoc]

/-- Claim C3 witness: the theorem applied to a concrete record of each
status, with the formatter evaluated at the `Ok`-status record. -/
theorem C3_status_lines_witness :
    (∃ rest,
      "Span: \"expensive_step_1\"\n- Status: Ok\n- Start: 1700000000\n- End: 1700000000\n- Resource:\n  - service: demo\n- Attributes:\n- Events:\n- Links:\n" =
        spanHeader demoSpan ++ statusSection demoSpan.status ++ rest) ∧
    statusSection preEpochSpan.status = "" ∧
    statusSection demoSpan.status = "- Status: Ok\n" ∧
    statusSection (Status.error "boom") = "- Status: Error\n" ++ "- Error: " ++ "boom" ++ "\n" :=
  ⟨(C3_status_lines { span := demoSpan, resource := demoResource }).1 _ (by decide),
   (C3_status_lines { span := preEpochSpan, resource := [] }).2.1 rfl,
   (C3_status_lines { span := demoSpan, resource := [] }).2.2.1 rfl,
   (C3_status_lines { span := { demoSpan with status := Status.error "boom" }, resource := [] }).2.2.2
     "boom" rfl⟩

/-- Claim C4: on the span named `expensive_step_1` with `Ok` status,
start = end = 1700000000 s after the epoch, the single resource attribute
`service=demo` and no span attributes, events or links, the formatter
produces exactly the nine lines of the golden scenario, in order. -/
theorem C4_golden_scenario :
    SpanData.fmt { span := demoSpan, resource := demoResource } =
      Panics.ok ("Span: \"expensive_step_1\"\n" ++ "- Status: Ok\n" ++
        "- Start: 1700000000\n" ++ "- End: 1700000000\n" ++
        "- Resource:\n" ++ "  - service: demo\n" ++
        "- Attributes:\n" ++ "- Events:\n" ++ "- Links:\n") := by decide

/-- A span record whose four sequences are all empty and whose times sit at
the epoch. -/
def bareSpan : SpanRecord :=
  { name := "s", status := Status.unset, start_time := 0, end_time := 0,
    attributes := [], events := [], links := [] }

/-- A span record with a nonempty attribute set but empty events and links,
for the mixed-emptiness cases. -/
def mixedSpan : SpanRecord :=
  { name := "m", status := Status.ok, start_time := 0, end_time := 0,
    attributes := [{ key := "k", value := "v" }], events := [], links := [] }

/-- Claim C5: every successful render contains all four section headers, in
order, as the section substrings of the output; and independently for each
section, whenever its sequence is empty that section is exactly its header
line (`- Resource:`, `- Attributes:`, `- Events:` or `- Links:`) followed by
zero indented item lines — regardless of whether the other sequences are
empty. -/
theorem C5_empty_sections (sd : SpanData) (out : String)
    (hout : SpanData.fmt sd = Panics.ok out) :
    (∃ st en, out = spanHeader sd.span ++ statusSection sd.span.status ++ st ++ en ++
      resourceSection sd.resource ++ attributesSection sd.span.attributes ++
      eventsSection sd.span.events ++ linksSection sd.span.links) ∧
    (sd.resource = [] → resourceSection sd.resource = "- Resource:\n") ∧
    (sd.span.attributes = [] → attributesSection sd.span.attributes = "- Attributes:\n") ∧
    (sd.span.events = [] → eventsSection sd.span.events = "- Events:\n") ∧
    (sd.span.links = [] → linksSection sd.span.links = "- Links:\n") := by
  obtain ⟨st, en, _, _, h⟩ := fmt_ok_shape sd out hout
  refine ⟨⟨st, en, h⟩, fun hres => ?_, fun hattrs => ?_, fun hevents => ?_, fun hlinks => ?_⟩
  · rw [hres]
    simp only [resourceSection, List.map_nil, concatAll, str_append_empty]
  · rw [hattrs]
    simp only [attributesSection, List.map_nil, concatAll, str_append_empty]
  · rw [hevents]
    simp only [eventsSection, List.map_nil, concatAll, str_append_empty]
  · rw [hlinks]
    simp only [linksSection, List.map_nil, concatAll, str_append_empty]

/-- Claim C5 witness: the theorem applied to a mixed record (nonempty
resource and span attributes, empty events and links) for the decomposition
and the empty-events/empty-links cases, and to an all-empty record for the
empty-resource/empty-attributes cases — each with the formatter
evaluated. -/
theorem C5_empty_sections_witness :
    (∃ st en,
      "Span: \"m\"\n- Status: Ok\n- Start: 0\n- End: 0\n- Resource:\n  - service: demo\n- Attributes:\n  - k: v\n- Events:\n- Links:\n" =
        spanHeader mixedSpan ++ statusSection mixedSpan.status ++ st ++ en ++
        resourceSection demoResource ++ attributesSection mixedSpan.attributes ++
        eventsSection mixedSpan.events ++ linksSection mixedSpan.links) ∧
    eventsSection mixedSpan.events = "- Events:\n" ∧
    linksSection mixedSpan.links = "- Links:\n" ∧
    resourceSection ([] : Resource) = "- Resource:\n" ∧
    attributesSection bareSpan.attributes = "- Attributes:\n" :=
  ⟨(C5_empty_sections { span := mixedSpan, resource := demoResource }
      "Span: \"m\"\n- Status: Ok\n- Start: 0\n- End: 0\n- Resource:\n  - service: demo\n- Attributes:\n  - k: v\n- Events:\n- Links:\n"
      (by decide)).1,
   (C5_empty_sections { span := mixedSpan, resource := demoResource }
      "Span: \"m\"\n- Status: Ok\n- Start: 0\n- End: 0\n- Resource:\n  - service: demo\n- Attributes:\n  - k: v\n- Events:\n- Links:\n"
      (by decide)).2.2.2.1 rfl,
   (C5_empty_sections { span := mixedSpan, resource := demoResource }
      "Span: \"m\"\n- Status: Ok\n- Start: 0\n- End: 0\n- Resource:\n  - service: demo\n- Attributes:\n  - k: v\n- Events:\n- Links:\n"
      (by decide)).2.2.2.2 rfl,
   (C5_empty_sections { span := bareSpan, resource := [] }
      "Span: \"s\"\n- Start: 0\n- End: 0\n- Resource:\n- Attributes:\n- Events:\n- Links:\n"
      (by decide)).2.1 rfl,
   (C5_empty_sections { span := bareSpan, resource := [] }
      "Span: \"s\"\n- Start: 0\n- End: 0\n- Resource:\n- Attributes:\n- Events:\n- Links:\n"
      (by decide)).2.2.1 rfl⟩

theorem str_empty_append (a : String) : "" ++ a = a := by
  apply String.ext
  rw [String.data_append]
  rfl

theorem exportLoop_ok_elim (res : Resource) :
    ∀ (batch : List SpanRecord) (acc out : String),
      exportLoop res batch acc = Panics.ok out →
      ∃ texts : List String,
        batch.map (fun s => SpanData.fmt { span := s, resource := res }) =
          texts.map Panics.ok ∧
        out = acc ++ concatAll (texts.map (fun t => t ++ "\n")) := by
  intro batch
  induction batch with
  | nil =>
    intro acc out h
    injection h with h
    exact ⟨[], rfl, by rw [← h]; simp [concatAll, str_append_empty]⟩
  | cons s rest ih =>
    intro acc out h
    rw [exportLoop] at h
    cases hf : SpanData.fmt { span := s, resource := res } with
    | panicked m => rw [hf] at h; exact absurd h (by simp)
    | ok text =>
      rw [hf] at h
      obtain ⟨texts, hmap, hout⟩ := ih (acc ++ text ++ "\n") out h
      refine ⟨text :: texts, ?_, ?_⟩
      · simp [hf, hmap]
      · rw [hout]
        simp only [List.map_cons, concatAll, str_append_assoc]

/-- Claim C6: a successful export call renders every record of the batch
with the exporter's current resource, and the sink receives, in batch
order, each record's rendered text followed by a one-line separator (the
extra newline of `writeln!(writer, "{}", span_data)`), then the final blank
line. -/
theorem C6_export_order (e : WriterExporter) (batch : List SpanRecord)
    (out : String) (r : ExportResult)
    (h : e.export batch = Panics.ok (out, r)) :
    ∃ texts : List String,
      batch.map (fun s => SpanData.fmt { span := s, resource := e.resource }) =
        texts.map Panics.ok ∧
      out = concatAll (texts.map (fun t => t ++ "\n")) ++ "\n" := by
  rw [WriterExporter.export] at h
  cases hl : exportLoop e.resource batch "" with
  | panicked m => rw [hl] at h; exact absurd h (by simp)
  | ok o =>
    rw [hl] at h
    injection h with h
    injection h with h1 h2
    obtain ⟨texts, hmap, hout⟩ := exportLoop_ok_elim e.resource batch "" o hl
    refine ⟨texts, hmap, ?_⟩
    rw [← h1, hout, str_empty_append]

/-- Claim C6 witness: the theorem applied to a one-record batch, with the
export call evaluated. -/
theorem C6_export_order_witness :
    ∃ texts : List String,
      [demoSpan].map (fun s => SpanData.fmt { span := s, resource := demoResource }) =
        texts.map Panics.ok ∧
      "Span: \"expensive_step_1\"\n- Status: Ok\n- Start: 1700000000\n- End: 1700000000\n- Resource:\n  - service: demo\n- Attributes:\n- Events:\n- Links:\n\n\n" =
        concatAll (texts.map (fun t => t ++ "\n")) ++ "\n" :=
  C6_export_order { resource := demoResource } [demoSpan]
    "Span: \"expensive_step_1\"\n- Status: Ok\n- Start: 1700000000\n- End: 1700000000\n- Resource:\n  - service: demo\n- Attributes:\n- Events:\n- Links:\n\n\n"
    (Except.ok ()) (by decide)

/-- Claim C7: `set_resource` replaces the stored resource wholesale — the
updated exporter is exactly `{ resource := r }`, so it has no other state to
change, every exporter that had `set_resource r` called on it exports
identically afterwards, and subsequent renders pair spans with `r`. -/
theorem C7_set_resource (e e2 : WriterExporter) (r : Resource) (s : SpanRecord)
    (batch : List SpanRecord) :
    (e.set_resource r).resource = r ∧
    e.set_resource r = { resource := r } ∧
    (e.set_resource r).export batch = WriterExporter.export { resource := r } batch ∧
    (e.set_resource r).export batch = (e2.set_resource r).export batch ∧
    SpanData.fmt { span := s, resource := (e.set_resource r).resource } =
      SpanData.fmt { span := s, resource := r } :=
  ⟨rfl, rfl, rfl, rfl, rfl⟩

/-- Claim C8: formatting is deterministic — the output is a function of the
record and the resource alone, so two `SpanData` values agreeing on both
fields format identically. -/
theorem C8_deterministic (p q : SpanData)
    (hspan : p.span = q.span) (hres : p.resource = q.resource) :
    SpanData.fmt p = SpanData.fmt q := by
  cases p
  cases q
  simp_all

/-- Claim C8 witness: the theorem applied to two structurally equal concrete
pairs. -/
theorem C8_deterministic_witness :
    SpanData.fmt { span := demoSpan, resource := demoResource } =
      SpanData.fmt { span := demoSpan, resource := demoResource } :=
  C8_deterministic { span := demoSpan, resource := demoResource }
    { span := demoSpan, resource := demoResource } rfl rfl

/-- Claim C9: after the per-record blocks, `export` writes exactly one more
blank line (`writeln!(writer)`) before returning: a successful export's
sink output is the loop's output plus a single final `"\n"`, and exporting
an empty batch writes exactly one blank line. -/
theorem C9_trailing_blank_line (e : WriterExporter) :
    e.export [] = Panics.ok ("\n", Except.ok ()) ∧
    ∀ batch out r, e.export batch = Panics.ok (out, r) →
      ∃ blocks, exportLoop e.resource batch "" = Panics.ok blocks ∧ out = blocks ++ "\n" := by
  constructor
  · rw [WriterExporter.export]
    show Panics.ok ("" ++ "\n", Except.ok ()) = Panics.ok ("\n", Except.ok ())
    rw [str_empty_append]
  · intro batch out r h
    rw [WriterExporter.export] at h
    cases hl : exportLoop e.resource batch "" with
    | panicked m => rw [hl] at h; exact absurd h (by simp)
    | ok o =>
      rw [hl] at h
      injection h with h
      injection h with h1 h2
      exact ⟨o, rfl, h1.symm⟩

/-- Claim C9 witness: the theorem applied at an empty batch and at a
one-record batch, with the export call evaluated. -/
theorem C9_trailing_blank_line_witness :
    WriterExporter.export { resource := [] } [] = Panics.ok ("\n", Except.ok ()) ∧
    ∃ blocks, exportLoop ([] : Resource) [bareSpan] "" = Panics.ok blocks ∧
      "Span: \"s\"\n- Start: 0\n- End: 0\n- Resource:\n- Attributes:\n- Events:\n- Links:\n\n\n" =
        blocks ++ "\n" :=
  ⟨(C9_trailing_blank_line { resource := [] }).1,
   (C9_trailing_blank_line { resource := [] }).2 [bareSpan]
     "Span: \"s\"\n- Start: 0\n- End: 0\n- Resource:\n- Attributes:\n- Events:\n- Links:\n\n\n"
     (Except.ok ()) (by decide)⟩

/-- Claim C10: whenever `export` returns (no write panicked), the returned
`ExportResult` is `Ok(())` — the source builds the result only as
`ExportResult::Ok(())`, so the error branch of the result type is never
produced. -/
theorem C10_export_ok_result (e : WriterExporter) (batch : List SpanRecord)
    (out : String) (r : ExportResult)
    (h : e.export batch = Panics.ok (out, r)) : r = Except.ok () := by
  rw [WriterExporter.export] at h
  cases hl : exportLoop e.resource batch "" with
  | panicked m => rw [hl] at h; exact absurd h (by simp)
  | ok o =>
    rw [hl] at h
    injection h with h
    injection h with h1 h2
    exact h2.symm

/-- Claim C10 witness: the theorem applied to a concrete export call whose
result component is checked to be `Ok(())`. -/
theorem C10_export_ok_result_witness : (Except.ok () : ExportResult) = Except.ok () :=
  C10_export_ok_result { resource := [] } [] "\n" (Except.ok ()) (by decide)
